import Mathlib

/-!
# Catmull-Rom spline extrusion: a shallow embedding of `main.cpp`

The program's `float` arithmetic is embedded as exact arithmetic in a linearly
ordered field `α` (instantiated at `ℚ` for evaluation and at `ℝ` where square
roots and trigonometric functions are needed).  The process-wide variables of
`main.cpp` are gathered in the record `Scene`, and every `void` function that
mutates them becomes a function on scenes.  The OpenGL calls issued by
`drawExtrudedGeometry` become a list of `GLCmd` values, in the order of the calls.
The key handler, whose width can come unchecked from the command line, works on
scenes whose floats are `Flt` values: numbers, the infinities and NaN.
-/

set_option autoImplicit false
set_option linter.unusedVariables false

/-- The record `struct Point { float x, y; }` (main.cpp:19-21). -/
structure Point (α : Type) where
  x : α
  y : α
deriving DecidableEq, Repr

/-- The process-wide variables of main.cpp:23-32 (`textureFilePath`, a string that
no modelled function reads, is left out). -/
structure Scene (α : Type) where
  controlPoints : List (Point α)
  splinePoints : List (Point α)
  rotationAngle : α
  extrusionWidth : α
  showWireframe : Bool
  showLabels : Bool
  autoRotate : Bool
  textureId : Nat
  textureRepeat : α

section Embedding

variable {α : Type} [LinearOrderedField α]

/-- The initialisers of main.cpp:23-32. -/
def Scene.initial : Scene α :=
  { controlPoints := [], splinePoints := [], rotationAngle := 0.0, extrusionWidth := 0.3,
    showWireframe := true, showLabels := true, autoRotate := false, textureId := 0,
    textureRepeat := 4.0 }

/-- The scene right after start-up with the control polygon `controlPoints` loaded. -/
def Scene.load (controlPoints : List (Point α)) : Scene α :=
  { (Scene.initial : Scene α) with controlPoints := controlPoints }

/-- The fallback polygon installed by `main` when the points file cannot be read
(main.cpp:393). -/
def defaultPoints : List (Point α) :=
  [⟨0, 0⟩, ⟨1, 1⟩, ⟨2, 3⟩, ⟨5, 1⟩, ⟨7, 8⟩]

/-- The function `catmullRom` (main.cpp:35-51), with `t2` and `t3` its locals. -/
def catmullRom (p0 p1 p2 p3 : Point α) (t : α) : Point α :=
  let t2 := t * t
  let t3 := t2 * t
  { x := 0.5 * ((2.0 * p1.x) +
                (-p0.x + p2.x) * t +
                (2.0 * p0.x - 5.0 * p1.x + 4.0 * p2.x - p3.x) * t2 +
                (-p0.x + 3.0 * p1.x - 3.0 * p2.x + p3.x) * t3),
    y := 0.5 * ((2.0 * p1.y) +
                (-p0.y + p2.y) * t +
                (2.0 * p0.y - 5.0 * p1.y + 4.0 * p2.y - p3.y) * t2 +
                (-p0.y + 3.0 * p1.y - 3.0 * p2.y + p3.y) * t3) }

/-- The element read by `v[i]` on a `std::vector<Point>`; every index the program
uses is in range, the default is never returned on those paths. -/
def index (v : List (Point α)) (i : Nat) : Point α := v.getD i ⟨0, 0⟩

/-- The function `generateSpline` (main.cpp:97-116): clears `splinePoints`, returns
at once when there are fewer than two control points, and otherwise pushes 40
samples per control segment followed by the last control point. -/
def generateSpline (g : Scene α) : Scene α :=
  let controlPoints := g.controlPoints
  let splinePoints : List (Point α) := []
  if controlPoints.length < 2 then { g with splinePoints := splinePoints } else
  let segments : Nat := 40
  let splinePoints := (List.range (controlPoints.length - 1)).foldl (fun sp (i : Nat) =>
    let p0 := if i = 0 then index controlPoints i else index controlPoints (i - 1)
    let p1 := index controlPoints i
    let p2 := index controlPoints (i + 1)
    let p3 := if i + 2 < controlPoints.length then index controlPoints (i + 2)
              else index controlPoints (i + 1)
    (List.range segments).foldl (fun sp (j : Nat) =>
      let t : α := (j : α) / (segments : α)
      sp ++ [catmullRom p0 p1 p2 p3 t]) sp) splinePoints
  { g with splinePoints := splinePoints ++ [controlPoints.getLastD ⟨0, 0⟩] }

/-- The callback `timer` (main.cpp:298-306): the state change of one tick.  The
redraw request and the re-arming of the timer do not touch the scene. -/
def timer (g : Scene α) : Scene α :=
  if g.autoRotate then
    let rotationAngle := g.rotationAngle + 0.5
    let rotationAngle := if rotationAngle > 360.0 then rotationAngle - 360.0 else rotationAngle
    { g with rotationAngle := rotationAngle }
  else g

/-- A `float` as the width handlers can meet it: a number (kept exact), one of the
two infinities, or NaN.  These are the values `std::stof(argv[2])` can store in
`extrusionWidth` (main.cpp:386). -/
inductive Flt (α : Type) where
  | nan
  | negInf
  | num (x : α)
  | posInf
deriving DecidableEq, Repr

/-- IEEE addition on `Flt`: NaN propagates, opposite infinities give NaN. -/
def Flt.add : Flt α → Flt α → Flt α
  | Flt.nan, _ => Flt.nan
  | _, Flt.nan => Flt.nan
  | Flt.posInf, Flt.negInf => Flt.nan
  | Flt.negInf, Flt.posInf => Flt.nan
  | Flt.posInf, _ => Flt.posInf
  | _, Flt.posInf => Flt.posInf
  | Flt.negInf, _ => Flt.negInf
  | _, Flt.negInf => Flt.negInf
  | Flt.num x, Flt.num y => Flt.num (x + y)

/-- IEEE subtraction on `Flt`: NaN propagates, equal infinities give NaN. -/
def Flt.sub : Flt α → Flt α → Flt α
  | Flt.nan, _ => Flt.nan
  | _, Flt.nan => Flt.nan
  | Flt.posInf, Flt.posInf => Flt.nan
  | Flt.negInf, Flt.negInf => Flt.nan
  | Flt.posInf, _ => Flt.posInf
  | _, Flt.posInf => Flt.negInf
  | Flt.negInf, _ => Flt.negInf
  | _, Flt.negInf => Flt.posInf
  | Flt.num x, Flt.num y => Flt.num (x - y)

/-- IEEE `a < b` on `Flt`: false as soon as one side is NaN. -/
def Flt.lt : Flt α → Flt α → Bool
  | Flt.nan, _ => false
  | _, Flt.nan => false
  | _, Flt.negInf => false
  | Flt.negInf, _ => true
  | Flt.posInf, _ => false
  | Flt.num _, Flt.posInf => true
  | Flt.num x, Flt.num y => decide (x < y)

/-- IEEE `a <= b` on `Flt`: false as soon as one side is NaN. -/
def Flt.le : Flt α → Flt α → Bool
  | Flt.nan, _ => false
  | _, Flt.nan => false
  | Flt.negInf, _ => true
  | _, Flt.posInf => true
  | _, Flt.negInf => false
  | Flt.posInf, _ => false
  | Flt.num x, Flt.num y => decide (x ≤ y)

/-- The callback `keyboard` (main.cpp:316-348): the state change of one key press;
`none` is `exit(0)`.  The floats of the scene are `Flt` values, so that a width
that is NaN or infinite is covered.  Console output and the redraw request do not
touch the scene. -/
def keyboard (key : Char) (g : Scene (Flt α)) : Option (Scene (Flt α)) :=
  if key = 'w' ∨ key = 'W' then
    some { g with extrusionWidth := Flt.add g.extrusionWidth (Flt.num 0.05) }
  else if key = 's' ∨ key = 'S' then
    let extrusionWidth := Flt.sub g.extrusionWidth (Flt.num 0.05)
    let extrusionWidth :=
      if Flt.lt extrusionWidth (Flt.num 0.1) then Flt.num 0.1 else extrusionWidth
    some { g with extrusionWidth := extrusionWidth }
  else if key = 'f' ∨ key = 'F' then
    some { g with showWireframe := !g.showWireframe }
  else if key = 'l' ∨ key = 'L' then
    some { g with showLabels := !g.showLabels }
  else if key = 'r' ∨ key = 'R' then
    some { g with autoRotate := !g.autoRotate }
  else if key = ' ' then
    some { g with rotationAngle := Flt.num 0.0 }
  else if key.toNat = 27 then
    none
  else some g

/-- A run of key presses, stopping at `exit(0)`. -/
def keyboardRun (keys : List Char) (g : Scene (Flt α)) : Option (Scene (Flt α)) :=
  keys.foldl (fun s key => s.bind (keyboard key)) (some g)

/-- The `<cmath>` functions and the constant `M_PI` that `drawExtrudedGeometry`
calls; they are a parameter of the embedding. -/
structure CMath (α : Type) where
  sqrt : α → α
  cos : α → α
  sin : α → α
  pi : α

/-- Capabilities passed to `glEnable` / `glDisable`. -/
inductive GLCap where
  | lighting
  | light0
  | texture2D
deriving DecidableEq, Repr

/-- Primitive kinds passed to `glBegin`. -/
inductive GLPrim where
  | quadStrip
  | lines
  | points
deriving DecidableEq, Repr

/-- Modes passed to `glPolygonMode(GL_FRONT_AND_BACK, ·)`. -/
inductive GLPoly where
  | fill
  | line
deriving DecidableEq, Repr

/-- The OpenGL / GLUT calls that `drawExtrudedGeometry` issues. -/
inductive GLCmd (α : Type) where
  | glEnable (cap : GLCap)
  | glDisable (cap : GLCap)
  | glPolygonMode (mode : GLPoly)
  | glBindTexture (id : Nat)
  | glLineWidth (w : α)
  | glPointSize (s : α)
  | glBegin (prim : GLPrim)
  | glEnd
  | glNormal3f (x y z : α)
  | glColor3f (r g b : α)
  | glTexCoord2f (u v : α)
  | glVertex3f (x y z : α)
  | glRasterPos3f (x y z : α)
  | glutBitmapCharacter (c : Char)
deriving DecidableEq, Repr

open GLCmd

/-- The function `drawText` (main.cpp:118-123). -/
def drawText (text : String) (x y z : α) : List (GLCmd α) :=
  glRasterPos3f x y z :: text.toList.map glutBitmapCharacter

/-- The arc-length loop of `drawExtrudedGeometry` (main.cpp:175-183): returns
`(totalLength, cumulativeLen)`. -/
def arcLengthTable (m : CMath α) (splinePoints : List (Point α)) : α × List α :=
  (List.range' 1 (splinePoints.length - 1)).foldl (fun acc i =>
    let totalLength := acc.1
    let cumulativeLen := acc.2
    let dx := (index splinePoints i).x - (index splinePoints (i - 1)).x
    let dy := (index splinePoints i).y - (index splinePoints (i - 1)).y
    let segLen := m.sqrt (dx * dx + dy * dy)
    let totalLength := totalLength + segLen
    (totalLength, cumulativeLen.set i totalLength))
    (0.0, List.replicate splinePoints.length 0.0)

/-- The length `len` of segment `i` as the extrusion loop computes it
(main.cpp:207-212). -/
def segmentLen (m : CMath α) (splinePoints : List (Point α)) (i : Nat) : α :=
  let curr := index splinePoints i
  let next := index splinePoints (i + 1)
  let dx := next.x - curr.x
  let dy := next.y - curr.y
  m.sqrt (dx * dx + dy * dy)

/-- The normalised direction `(dx, dy)` of segment `i` (main.cpp:207-216). -/
def segmentDir (m : CMath α) (splinePoints : List (Point α)) (i : Nat) : α × α :=
  let curr := index splinePoints i
  let next := index splinePoints (i + 1)
  let dx := next.x - curr.x
  let dy := next.y - curr.y
  let len := segmentLen m splinePoints i
  let dx := dx / len
  let dy := dy / len
  (dx, dy)

/-- The perpendicular `(perpX, perpY)` of segment `i` (main.cpp:218-219). -/
def segmentPerp (m : CMath α) (splinePoints : List (Point α)) (i : Nat) : α × α :=
  let dx := (segmentDir m splinePoints i).1
  let dy := (segmentDir m splinePoints i).2
  let perpX := -dy
  let perpY := dx
  (perpX, perpY)

/-- The offset `(offsetX, offsetY, offsetZ)` of ring step `j` (main.cpp:223-229). -/
def ringOffset (m : CMath α) (extrusionWidth perpX perpY : α) (j : Nat) : α × α × α :=
  let sides : Nat := 16
  let angle := ((j : α) / (sides : α)) * 2.0 * m.pi
  let cosA := m.cos angle
  let sinA := m.sin angle
  let offsetX := perpX * cosA * extrusionWidth
  let offsetY := perpY * cosA * extrusionWidth
  let offsetZ := sinA * extrusionWidth
  (offsetX, offsetY, offsetZ)

/-- One pass of the inner loop of `drawExtrudedGeometry` (main.cpp:222-244), for
ring step `j` of segment `i` running from `curr` to `next`. -/
def ringStep (m : CMath α) (g : Scene α) (totalLength : α) (cumulativeLen : List α)
    (i : Nat) (curr next : Point α) (perpX perpY : α) (j : Nat) : List (GLCmd α) :=
  let sides : Nat := 16
  let extrusionWidth := g.extrusionWidth
  let offsetX := (ringOffset m extrusionWidth perpX perpY j).1
  let offsetY := (ringOffset m extrusionWidth perpX perpY j).2.1
  let offsetZ := (ringOffset m extrusionWidth perpX perpY j).2.2
  (if !g.showWireframe then
    let t : α := (i : α) / (g.splinePoints.length : α)
    let u : α := (j : α) / (sides : α)
    let v : α := (cumulativeLen.getD i 0 / totalLength) * g.textureRepeat
    [glNormal3f (offsetX / extrusionWidth) (offsetY / extrusionWidth) (offsetZ / extrusionWidth),
     glColor3f (0.3 + 0.5 * t) 0.4 (0.9 - 0.4 * t)] ++
    (if g.textureId ≠ 0 then [glTexCoord2f u v] else [])
  else
    [glColor3f 0.7 0.7 0.8]) ++
  [glVertex3f (curr.x + offsetX) (curr.y + offsetY) offsetZ,
   glVertex3f (next.x + offsetX) (next.y + offsetY) offsetZ]

/-- One pass of the outer loop of `drawExtrudedGeometry` (main.cpp:206-246), for
segment `i`; the empty list is the `continue` of a segment shorter than `0.001`. -/
def tubeSegment (m : CMath α) (g : Scene α) (totalLength : α) (cumulativeLen : List α)
    (i : Nat) : List (GLCmd α) :=
  let sides : Nat := 16
  let curr := index g.splinePoints i
  let next := index g.splinePoints (i + 1)
  let len := segmentLen m g.splinePoints i
  if len < 0.001 then [] else
  let perpX := (segmentPerp m g.splinePoints i).1
  let perpY := (segmentPerp m g.splinePoints i).2
  [glBegin GLPrim.quadStrip] ++
  (List.range (sides + 1)).flatMap
    (ringStep m g totalLength cumulativeLen i curr next perpX perpY) ++
  [glEnd]

/-- The function `drawExtrudedGeometry` (main.cpp:171-278): the OpenGL and GLUT calls
of one frame, in call order; nothing is issued on the two early returns. -/
def drawExtrudedGeometry (m : CMath α) (g : Scene α) : List (GLCmd α) :=
  let splinePoints := g.splinePoints
  if splinePoints.length < 2 then [] else
  let totalLength := (arcLengthTable m splinePoints).1
  let cumulativeLen := (arcLengthTable m splinePoints).2
  if totalLength < 0.0001 then [] else
  (if !g.showWireframe then
    [glEnable GLCap.lighting, glEnable GLCap.light0, glPolygonMode GLPoly.fill] ++
    (if g.textureId ≠ 0 then
      [glEnable GLCap.texture2D, glBindTexture g.textureId, glColor3f 1.0 1.0 1.0]
    else
      [glDisable GLCap.texture2D])
  else
    [glDisable GLCap.lighting, glPolygonMode GLPoly.line, glDisable GLCap.texture2D]) ++
  (List.range (splinePoints.length - 1)).flatMap
    (tubeSegment m g totalLength cumulativeLen) ++
  [glPolygonMode GLPoly.fill] ++
  (if g.showLabels ∧ splinePoints.length > 10 then
    let p := index splinePoints 10
    let p0 := index g.controlPoints 0
    [glDisable GLCap.lighting, glDisable GLCap.texture2D, glColor3f 1.0 0.0 0.0] ++
    drawText "Extruded Geometry" (p.x - 3.0) (p.y - 1.5) 0.0 ++
    [glColor3f 1.0 0.0 0.0] ++
    drawText "Width" ((index g.controlPoints 0).x - 1.0) ((index g.controlPoints 0).y - 1.0) 0.0 ++
    [glLineWidth 2.0, glColor3f 1.0 0.0 0.0,
     glBegin GLPrim.lines,
     glVertex3f p0.x p0.y (-g.extrusionWidth),
     glVertex3f p0.x p0.y g.extrusionWidth,
     glEnd,
     glPointSize 6.0,
     glBegin GLPrim.points,
     glVertex3f p0.x p0.y (-g.extrusionWidth),
     glVertex3f p0.x p0.y g.extrusionWidth,
     glEnd]
  else [])

/-- A vertex as the OpenGL pipeline receives it: the position given to
`glVertex3f` together with the normal, colour and texture coordinates that were
current at that call. -/
structure GLVertex (α : Type) where
  position : α × α × α
  normal : α × α × α
  color : α × α × α
  texCoord : α × α
deriving DecidableEq, Repr

/-- The current-attribute part of the OpenGL state and the vertices issued so far. -/
structure GLState (α : Type) where
  normal : α × α × α
  color : α × α × α
  texCoord : α × α
  vertices : List (GLVertex α)

/-- The OpenGL defaults: normal `(0,0,1)`, colour white, texture coordinates `(0,0)`. -/
def GLState.initial : GLState α :=
  { normal := (0, 0, 1), color := (1, 1, 1), texCoord := (0, 0), vertices := [] }

/-- The immediate-mode contract of OpenGL for one call: `glNormal3f`, `glColor3f`
and `glTexCoord2f` replace the current attribute, `glVertex3f` issues a vertex
carrying the current attributes, the other calls issue no vertex. -/
def glExec (s : GLState α) : GLCmd α → GLState α
  | GLCmd.glNormal3f x y z => { s with normal := (x, y, z) }
  | GLCmd.glColor3f r g b => { s with color := (r, g, b) }
  | GLCmd.glTexCoord2f u v => { s with texCoord := (u, v) }
  | GLCmd.glVertex3f x y z =>
    { s with vertices := s.vertices ++ [⟨(x, y, z), s.normal, s.color, s.texCoord⟩] }
  | _ => s

/-- The vertices a call sequence issues, starting from the state `s`. -/
def glVertices (s : GLState α) (cmds : List (GLCmd α)) : List (GLVertex α) :=
  (cmds.foldl glExec s).vertices

/-- An input string stream: the unread characters and the fail bit. -/
structure IStream where
  buf : List Char
  fail : Bool
deriving DecidableEq, Repr

/-- The characters `std::isspace` accepts in the "C" locale. -/
def isSpace (c : Char) : Bool :=
  c = ' ' ∨ c = '\t' ∨ c = '\n' ∨ c = '\r' ∨ c.toNat = 11 ∨ c.toNat = 12

/-- The extraction `operator>>(float&)` on a stream: nothing happens on a failed
stream; leading white space is skipped; at end of input the stream fails and the
variable keeps its value; otherwise the numeric parser of the library,
`parseFloat` (a parameter), runs, and on its failure the stream fails and the
variable is set to zero. -/
def extractFloat (parseFloat : List Char → Option (α × List Char)) (ss : IStream) (v : α) :
    IStream × α :=
  if ss.fail then (ss, v) else
  match ss.buf.dropWhile isSpace with
  | [] => ({ buf := [], fail := true }, v)
  | c :: cs =>
    match parseFloat (c :: cs) with
    | some (x, rest) => ({ buf := rest, fail := false }, x)
    | none => ({ buf := c :: cs, fail := true }, 0)

/-- The extraction `operator>>(char&)` on a stream: nothing happens on a failed
stream; leading white space is skipped and the next character, whatever it is,
is read. -/
def extractChar (ss : IStream) (v : Char) : IStream × Char :=
  if ss.fail then (ss, v) else
  match ss.buf.dropWhile isSpace with
  | [] => ({ buf := [], fail := true }, v)
  | c :: cs => ({ buf := cs, fail := false }, c)

/-- The lines that `while (std::getline(file, line))` yields: `cur` is the line
being read.  A final line without a newline is yielded; nothing is yielded after
a final newline. -/
def getlines : List Char → List Char → List (List Char)
  | cur, [] => if cur = [] then [] else [cur]
  | cur, c :: cs => if c = '\n' then cur :: getlines [] cs else getlines (cur ++ [c]) cs

/-- The body of the read loop of `readPoints` (main.cpp:86-90) on one line: the
stream state after `ss >> p.x >> comma >> p.y`, the separator read, and the point
that is pushed.  `uninit` is the indeterminate value of the local `Point p`. -/
def readLine (parseFloat : List Char → Option (α × List Char)) (uninit : Point α)
    (line : List Char) : IStream × Char × Point α :=
  let ss : IStream := { buf := line, fail := false }
  let p := uninit
  let r1 := extractFloat parseFloat ss p.x
  let r2 := extractChar r1.1 ' '
  let r3 := extractFloat parseFloat r2.1 p.y
  (r3.1, r2.2, { x := r1.2, y := r3.2 })

/-- The function `readPoints` (main.cpp:77-95).  `file` is the content of the file,
`none` when it cannot be opened; `uninit k` is the indeterminate value of the
local `Point p` in pass `k` of the loop.  Every pass pushes `p`. -/
def readPoints (parseFloat : List Char → Option (α × List Char)) (uninit : Nat → Point α)
    (file : Option String) (g : Scene α) : Bool × Scene α :=
  match file with
  | none => (false, g)
  | some content =>
    (true, { g with controlPoints :=
      (getlines [] content.toList).enum.foldl (fun controlPoints kl =>
        controlPoints ++ [(readLine parseFloat (uninit kl.1) kl.2).2.2]) g.controlPoints })

/-- The value of a run of decimal digits. -/
def digitsValue (ds : List Char) : Nat :=
  ds.foldl (fun n c => 10 * n + (c.toNat - 48)) 0

/-- A numeric parser for plain decimal literals (optional sign, digits, optional
fraction), standing in for the library parser behind `operator>>(float&)` where a
concrete one is needed; exponents, hexadecimal floats, infinities and NaNs are
not read. -/
def parseDecimal (cs : List Char) : Option (ℚ × List Char) :=
  let neg : Bool := cs.head? = some '-'
  let cs1 := if cs.head? = some '-' ∨ cs.head? = some '+' then cs.tail else cs
  let ip := cs1.takeWhile Char.isDigit
  let cs2 := cs1.dropWhile Char.isDigit
  let fp := if cs2.head? = some '.' then cs2.tail.takeWhile Char.isDigit else []
  let cs3 := if cs2.head? = some '.' then cs2.tail.dropWhile Char.isDigit else cs2
  if ip = [] ∧ fp = [] then none else
  let v : ℚ := (digitsValue ip : ℚ) + (digitsValue fp : ℚ) / (10 : ℚ) ^ fp.length
  some (if neg then -v else v, cs3)

/-- The sample pushed in pass `j` of the inner loop within pass `i` of the outer
loop of `generateSpline` (main.cpp:105-112). -/
def splineSample (controlPoints : List (Point α)) (i j : Nat) : Point α :=
  let segments : Nat := 40
  let p0 := if i = 0 then index controlPoints i else index controlPoints (i - 1)
  let p1 := index controlPoints i
  let p2 := index controlPoints (i + 1)
  let p3 := if i + 2 < controlPoints.length then index controlPoints (i + 2)
            else index controlPoints (i + 1)
  catmullRom p0 p1 p2 p3 ((j : α) / (segments : α))

/-- Whether a line parses as `<float>,<float>`: the three extractions succeed and
the separator read is a comma. -/
def parsesAsPoint (parseFloat : List Char → Option (α × List Char)) (line : List Char) : Bool :=
  let r := readLine parseFloat ⟨0, 0⟩ line
  !r.1.fail && r.2.1 = ','

/-- The scene after start-up on the control polygon `[(0,0),(10,0)]`: the polygon
is loaded and `generateSpline` has run, as in `main` (main.cpp:391-396). -/
def lineScene : Scene α :=
  generateSpline (Scene.load [⟨0, 0⟩, ⟨10, 0⟩])

/-- The scene `lineScene` switched to solid rendering with a texture loaded. -/
def texturedLineScene : Scene α :=
  { (lineScene : Scene α) with showWireframe := false, textureId := 1 }

/-- The scene after start-up on the control polygon `[(0,0),(0,0),(1,0)]`. -/
def repeatedScene : Scene α :=
  generateSpline (Scene.load [⟨0, 0⟩, ⟨0, 0⟩, ⟨1, 0⟩])

/-- The scene after start-up on the fallback polygon of `main`. -/
def defaultScene : Scene α :=
  generateSpline (Scene.load defaultPoints)

/-- A point with its coordinates as `Flt` numbers. -/
def Point.toFlt (p : Point α) : Point (Flt α) :=
  { x := Flt.num p.x, y := Flt.num p.y }

/-- The globals when the event loop starts (main.cpp:383-396 and 423), for a points
file that cannot be read and a width argument that `std::stof` reads as `width`:
the fallback polygon and its spline, the initial flags, and `width` stored as it
is. -/
def startScene (width : Flt α) : Scene (Flt α) :=
  { controlPoints := (defaultScene : Scene α).controlPoints.map Point.toFlt,
    splinePoints := (defaultScene : Scene α).splinePoints.map Point.toFlt,
    rotationAngle := Flt.num 0.0,
    extrusionWidth := width,
    showWireframe := true, showLabels := true, autoRotate := false, textureId := 0,
    textureRepeat := Flt.num 4.0 }

/-- The abscissa of sample `t` of `repeatedScene`, as the cubic of its control
segment: `(u³ - u²)/2` at `u = t/40` on the first segment and `(u + 3u² - 2u³)/2` at
`u = (t-40)/40` on the second. -/
def repeatedX (t : Nat) : α :=
  if t < 40 then (((t : α) / 40) ^ 3 - ((t : α) / 40) ^ 2) / 2
  else ((((t - 40 : Nat) : α) / 40) + 3 * (((t - 40 : Nat) : α) / 40) ^ 2
    - 2 * (((t - 40 : Nat) : α) / 40) ^ 3) / 2

end Embedding

open GLCmd

/-! ## Loops that push to a vector -/

section Loops

variable {β γ : Type}

theorem foldl_push_eq_map (f : γ → β) (l : List γ) (acc : List β) :
    l.foldl (fun sp j => sp ++ [f j]) acc = acc ++ l.map f := by
  induction l generalizing acc with
  | nil => simp
  | cons a l ih => simp [ih]

theorem foldl_append_eq_flatMap (f : γ → List β) (l : List γ) (acc : List β) :
    l.foldl (fun sp i => sp ++ f i) acc = acc ++ l.flatMap f := by
  induction l generalizing acc with
  | nil => simp
  | cons a l ih => simp [ih]

theorem length_flatMap_const (f : Nat → List β) (k n : Nat)
    (hk : ∀ i, (f i).length = k) : ((List.range n).flatMap f).length = k * n := by
  induction n with
  | zero => simp
  | succ n ih =>
    rw [List.range_succ, List.flatMap_append, List.length_append, ih]
    simp [hk, Nat.mul_succ]

theorem getElem?_flatMap_const (f : Nat → List β) (k n i j : Nat)
    (hk : ∀ i, (f i).length = k) (hi : i < n) (hj : j < k) :
    ((List.range n).flatMap f)[k * i + j]? = (f i)[j]? := by
  induction n with
  | zero => omega
  | succ n ih =>
    rw [List.range_succ, List.flatMap_append]
    by_cases h : i < n
    · rw [List.getElem?_append_left, ih h]
      rw [length_flatMap_const f k n hk]
      calc k * i + j < k * i + k := by omega
        _ = k * (i + 1) := by ring
        _ ≤ k * n := Nat.mul_le_mul_left k h
    · have hin : i = n := by omega
      subst hin
      rw [List.getElem?_append_right]
      · rw [length_flatMap_const f k i hk]
        simp
      · rw [length_flatMap_const f k i hk]
        omega

theorem getElem?_map_range {β : Type} (F : Nat → β) (n i : Nat) :
    ((List.range n).map F)[i]? = if i < n then some (F i) else none := by
  by_cases hi : i < n
  · simp [hi, List.getElem?_range hi]
  · have : (List.range n).length ≤ i := by simpa using hi
    simp [hi, List.getElem?_eq_none this]

end Loops

/-! ## The spline generator -/

section SplineLemmas

variable {α : Type} [LinearOrderedField α]

theorem catmullRom_zero (p0 p1 p2 p3 : Point α) : catmullRom p0 p1 p2 p3 0 = p1 := by
  cases p1 with
  | mk x y =>
    simp only [catmullRom, Point.mk.injEq]
    constructor <;> (norm_num; ring)

theorem generateSpline_short (g : Scene α) (h : g.controlPoints.length < 2) :
    (generateSpline g).splinePoints = [] := by
  simp [generateSpline, h]

theorem generateSpline_points (g : Scene α) (h : 2 ≤ g.controlPoints.length) :
    (generateSpline g).splinePoints =
      (List.range (g.controlPoints.length - 1)).flatMap
        (fun i => (List.range 40).map (splineSample g.controlPoints i)) ++
      [g.controlPoints.getLastD ⟨0, 0⟩] := by
  have h2 : ¬ g.controlPoints.length < 2 := by omega
  simp only [generateSpline, h2, if_false]
  simp only [foldl_push_eq_map, foldl_append_eq_flatMap, List.nil_append]
  rfl

theorem generateSpline_length (g : Scene α) (h : 2 ≤ g.controlPoints.length) :
    (generateSpline g).splinePoints.length = 40 * (g.controlPoints.length - 1) + 1 := by
  rw [generateSpline_points g h, List.length_append,
    length_flatMap_const _ 40 _ (fun i => by simp)]
  simp

theorem generateSpline_sample (g : Scene α) (i j : Nat)
    (hi : i + 1 < g.controlPoints.length) (hj : j < 40) :
    (generateSpline g).splinePoints[40 * i + j]? = some (splineSample g.controlPoints i j) := by
  rw [generateSpline_points g (by omega), List.getElem?_append_left,
    getElem?_flatMap_const _ 40 _ i j (fun i => by simp) (by omega) hj]
  · simp [List.getElem?_range hj]
  · rw [length_flatMap_const _ 40 _ (fun i => by simp)]
    omega

theorem generateSpline_last (g : Scene α) (h : 2 ≤ g.controlPoints.length) :
    (generateSpline g).splinePoints[40 * (g.controlPoints.length - 1)]? =
      g.controlPoints[g.controlPoints.length - 1]? := by
  rw [generateSpline_points g h, List.getElem?_append_right]
  · rw [length_flatMap_const _ 40 _ (fun i => by simp)]
    simp [List.getLastD_eq_getLast?, List.getLast?_eq_getElem?]
    have : g.controlPoints.length - 1 < g.controlPoints.length := by omega
    rw [List.getElem?_eq_getElem this]
    simp
  · rw [length_flatMap_const _ 40 _ (fun i => by simp)]

theorem generateSpline_frame {α : Type} [LinearOrderedField α] (g : Scene α) :
    (generateSpline g).controlPoints = g.controlPoints ∧
    (generateSpline g).rotationAngle = g.rotationAngle ∧
    (generateSpline g).extrusionWidth = g.extrusionWidth ∧
    (generateSpline g).showWireframe = g.showWireframe ∧
    (generateSpline g).showLabels = g.showLabels ∧
    (generateSpline g).autoRotate = g.autoRotate ∧
    (generateSpline g).textureId = g.textureId ∧
    (generateSpline g).textureRepeat = g.textureRepeat := by
  by_cases h : g.controlPoints.length < 2 <;> simp [generateSpline, h]

theorem index_eq_getElem? (v : List (Point α)) (i : Nat) (h : i < v.length) :
    v[i]? = some (index v i) := by
  simp [index, List.getD_eq_getElem?_getD, List.getElem?_eq_getElem h]

theorem index_of_getElem? {α : Type} [LinearOrderedField α] (v : List (Point α)) (i : Nat)
    (p : Point α) (h : v[i]? = some p) : index v i = p := by
  simp [index, List.getD_eq_getElem?_getD, h]

theorem twoPoint_sample (i : Nat) (hi : i ≤ 40) :
    (generateSpline (Scene.load [(⟨0, 0⟩ : Point α), ⟨10, 0⟩])).splinePoints[i]? =
      some ⟨5 * ((i : α) / 40) + 15 * ((i : α) / 40) ^ 2 - 10 * ((i : α) / 40) ^ 3, 0⟩ := by
  rcases Nat.lt_or_ge i 40 with h | h
  · have := generateSpline_sample (Scene.load [(⟨0, 0⟩ : Point α), ⟨10, 0⟩]) 0 i
      (by simp [Scene.load]) h
    simp only [Nat.mul_zero, Nat.zero_add] at this
    rw [this]
    simp only [splineSample, catmullRom, index, Scene.load, Option.some.injEq,
      Point.mk.injEq]
    constructor
    · norm_num
      ring
    · norm_num
  · have hi40 : i = 40 := by omega
    subst hi40
    have := generateSpline_last (Scene.load [(⟨0, 0⟩ : Point α), ⟨10, 0⟩])
      (by simp [Scene.load])
    simp only [Scene.load, List.length_cons, List.length_nil] at this
    simp only [Scene.load]
    rw [this]
    norm_num

theorem repeatedPoint_sample (j : Nat) (hj : j < 40) :
    (generateSpline (Scene.load [(⟨0, 0⟩ : Point α), ⟨0, 0⟩, ⟨1, 0⟩])).splinePoints[j]? =
      some ⟨(((j : α) / 40) ^ 3 - ((j : α) / 40) ^ 2) / 2, 0⟩ := by
  have := generateSpline_sample (Scene.load [(⟨0, 0⟩ : Point α), ⟨0, 0⟩, ⟨1, 0⟩]) 0 j
    (by simp [Scene.load]) hj
  simp only [Nat.mul_zero, Nat.zero_add] at this
  rw [this]
  simp only [splineSample, catmullRom, index, Scene.load, Option.some.injEq,
    Point.mk.injEq]
  constructor
  · norm_num
    ring
  · norm_num

theorem repeatedPoint_sample_all (t : Nat) (ht : t ≤ 80) :
    (generateSpline (Scene.load [(⟨0, 0⟩ : Point α), ⟨0, 0⟩, ⟨1, 0⟩])).splinePoints[t]? =
      some ⟨repeatedX t, 0⟩ := by
  rcases Nat.lt_or_ge t 40 with h | h
  · rw [repeatedPoint_sample t h]
    simp [repeatedX, h]
  · rcases Nat.lt_or_ge t 80 with h2 | h2
    · obtain ⟨j, rfl⟩ : ∃ j, t = 40 * 1 + j := ⟨t - 40, by omega⟩
      have hj : j < 40 := by omega
      rw [generateSpline_sample _ 1 j (by simp [Scene.load]) hj]
      have hnot : ¬ (40 * 1 + j < 40) := by omega
      simp only [splineSample, catmullRom, index, Scene.load, Option.some.injEq,
        Point.mk.injEq, repeatedX, hnot, if_false]
      constructor
      · norm_num
        ring
      · norm_num
    · have h80 : t = 80 := by omega
      subst h80
      have := generateSpline_last (Scene.load [(⟨0, 0⟩ : Point α), ⟨0, 0⟩, ⟨1, 0⟩])
        (by simp [Scene.load])
      simp only [Scene.load, List.length_cons, List.length_nil] at this
      simp only [Scene.load]
      rw [this]
      norm_num [repeatedX]

end SplineLemmas

/-! ## Timer and keyboard -/

section InteractionLemmas

variable {α : Type} [LinearOrderedField α]

theorem timer_autoRotate (g : Scene α) : (timer g).autoRotate = g.autoRotate := by
  unfold timer
  split <;> rfl

theorem timer_iterate_autoRotate (k : Nat) (g : Scene α) :
    (timer^[k] g).autoRotate = g.autoRotate := by
  induction k with
  | zero => rfl
  | succ k ih => rw [Function.iterate_succ_apply', timer_autoRotate, ih]

theorem timer_iterate_angle (k : Nat) (hk : k ≤ 720) (g : Scene α)
    (hauto : g.autoRotate = true) (h0 : g.rotationAngle = 0) :
    (timer^[k] g).rotationAngle = (k : α) / 2 := by
  induction k with
  | zero => simp [h0]
  | succ k ih =>
    have ihk := ih (by omega)
    have hka : (timer^[k] g).autoRotate = true := by rw [timer_iterate_autoRotate, hauto]
    rw [Function.iterate_succ_apply']
    have hle : ¬ ((k : α) / 2 + 0.5 > 360.0) := by
      have : (k : α) ≤ 719 := by exact_mod_cast (by omega : k ≤ 719)
      norm_num
      linarith
    simp only [timer, hka, if_true, ihk, hle, if_false]
    push_cast
    norm_num
    ring

theorem timer_angle_range (g : Scene α) (h : 0 ≤ g.rotationAngle ∧ g.rotationAngle ≤ 360) :
    0 ≤ (timer g).rotationAngle ∧ (timer g).rotationAngle ≤ 360 := by
  obtain ⟨h0, h1⟩ := h
  unfold timer
  by_cases ha : g.autoRotate = true
  · simp only [ha, if_true]
    by_cases hw : g.rotationAngle + 0.5 > 360.0
    · simp only [hw, if_true]
      norm_num at hw ⊢
      constructor <;> linarith
    · simp only [hw, if_false]
      norm_num at hw ⊢
      constructor <;> linarith
  · simp only [ha]
    exact ⟨h0, h1⟩

theorem timer_iterate_range {α : Type} [LinearOrderedField α] (k : Nat) (g : Scene α)
    (h : 0 ≤ g.rotationAngle ∧ g.rotationAngle ≤ 360) :
    0 ≤ (timer^[k] g).rotationAngle ∧ (timer^[k] g).rotationAngle ≤ 360 := by
  induction k with
  | zero => exact h
  | succ k ih =>
    rw [Function.iterate_succ_apply']
    exact timer_angle_range _ ih

theorem keyboard_widen (g : Scene (Flt α)) :
    keyboard 'w' g =
      some { g with extrusionWidth := Flt.add g.extrusionWidth (Flt.num 0.05) } := by
  simp [keyboard]

theorem keyboard_narrow (g : Scene (Flt α)) :
    keyboard 's' g =
      some { g with extrusionWidth :=
        if (Flt.lt (Flt.sub g.extrusionWidth (Flt.num 0.05)) (Flt.num 0.1)) then Flt.num 0.1
        else Flt.sub g.extrusionWidth (Flt.num 0.05) } := by
  have hkey : ¬ (('s' : Char) = 'w' ∨ ('s' : Char) = 'W') := by decide
  simp only [keyboard, hkey, if_false, true_or, if_true]

theorem keyboard_narrow_num (g : Scene (Flt α)) (x : α) (hx : g.extrusionWidth = Flt.num x) :
    keyboard 's' g = some { g with extrusionWidth := Flt.num (max 0.1 (x - 0.05)) } := by
  rw [keyboard_narrow, hx]
  simp only [Flt.sub, Flt.lt]
  by_cases h : x - 0.05 < 0.1
  · simp only [h, decide_True, if_true, max_eq_left (le_of_lt h)]
  · simp [h, max_eq_right (not_lt.mp h)]

theorem keyboard_narrow_nan (g : Scene (Flt α)) (hx : g.extrusionWidth = Flt.nan) :
    keyboard 's' g = some g := by
  rw [keyboard_narrow, hx]
  simp only [Flt.sub, Flt.lt]
  cases g
  simp_all

theorem narrow_floor (w : Flt α) (hw : w ≠ Flt.nan) :
    Flt.le (Flt.num 0.1)
      (if (Flt.lt (Flt.sub w (Flt.num 0.05)) (Flt.num 0.1)) then Flt.num 0.1
        else Flt.sub w (Flt.num 0.05)) = true := by
  cases w with
  | nan => exact absurd rfl hw
  | negInf => simp [Flt.sub, Flt.lt, Flt.le]
  | posInf => simp [Flt.sub, Flt.lt, Flt.le]
  | num x =>
    simp only [Flt.sub, Flt.lt]
    by_cases h : x - 0.05 < 0.1
    · simp [h, Flt.le]
    · simp [h, Flt.le, not_lt.mp h]

theorem widen_floor (w : Flt α) (hw : Flt.le (Flt.num 0.1) w = true) :
    Flt.le (Flt.num 0.1) (Flt.add w (Flt.num 0.05)) = true := by
  cases w with
  | nan => simp [Flt.le] at hw
  | negInf => simp [Flt.le] at hw
  | posInf => simp [Flt.add, Flt.le]
  | num x =>
    simp only [Flt.le, decide_eq_true_eq] at hw
    simp only [Flt.add, Flt.le, decide_eq_true_eq]
    have : (0 : α) ≤ 0.05 := by norm_num
    linarith

theorem le_ne_nan (w : Flt α) (hw : Flt.le (Flt.num 0.1) w = true) : w ≠ Flt.nan := by
  intro h
  subst h
  simp [Flt.le] at hw

theorem keyboard_width_key (key : Char) (g : Scene (Flt α))
    (hkey : key = 'w' ∨ key = 'W' ∨ key = 's' ∨ key = 'S')
    (hw : Flt.le (Flt.num 0.1) g.extrusionWidth = true) :
    ∃ g1, keyboard key g = some g1 ∧ Flt.le (Flt.num 0.1) g1.extrusionWidth = true := by
  by_cases h1 : key = 'w' ∨ key = 'W'
  · exact ⟨{ g with extrusionWidth := Flt.add g.extrusionWidth (Flt.num 0.05) },
      by simp only [keyboard, h1, if_true], widen_floor _ hw⟩
  · have h2 : key = 's' ∨ key = 'S' := by tauto
    exact ⟨{ g with extrusionWidth :=
        if (Flt.lt (Flt.sub g.extrusionWidth (Flt.num 0.05)) (Flt.num 0.1)) then Flt.num 0.1
        else Flt.sub g.extrusionWidth (Flt.num 0.05) },
      by simp only [keyboard, h1, if_false, h2, if_true],
      narrow_floor _ (le_ne_nan _ hw)⟩

theorem keyboardRun_width (keys : List Char) (g : Scene (Flt α))
    (hkeys : ∀ key ∈ keys, key = 'w' ∨ key = 'W' ∨ key = 's' ∨ key = 'S')
    (hw : Flt.le (Flt.num 0.1) g.extrusionWidth = true) :
    ∃ g1, keyboardRun keys g = some g1 ∧ Flt.le (Flt.num 0.1) g1.extrusionWidth = true := by
  induction keys generalizing g with
  | nil => exact ⟨g, rfl, hw⟩
  | cons key keys ih =>
    obtain ⟨g1, hg1, hw1⟩ := keyboard_width_key key g (hkeys key (List.mem_cons_self _ _)) hw
    obtain ⟨g2, hg2, hw2⟩ := ih g1 (fun k hk => hkeys k (List.mem_cons_of_mem _ hk)) hw1
    refine ⟨g2, ?_, hw2⟩
    simp only [keyboardRun, List.foldl_cons, Option.some_bind, hg1] at hg2 ⊢
    exact hg2

end InteractionLemmas

/-! ## The point loader -/

section LoaderLemmas

variable {α : Type} [LinearOrderedField α]

theorem readPoints_length (parseFloat : List Char → Option (α × List Char))
    (uninit : Nat → Point α) (content : String) (g : Scene α) :
    (readPoints parseFloat uninit (some content) g).2.controlPoints.length =
      g.controlPoints.length + (getlines [] content.toList).length := by
  simp only [readPoints]
  rw [foldl_push_eq_map]
  simp

end LoaderLemmas

/-! ## The extrusion loop and the arc-length table -/

section ExtrusionLemmas

variable {α : Type} [LinearOrderedField α]

theorem mem_tubeSegment_of_mem_ringStep (m : CMath α) (g : Scene α) (tot : α) (L : List α)
    (i j : Nat) (c : GLCmd α) (hj : j ≤ 16)
    (hlen : ¬ segmentLen m g.splinePoints i < 0.001)
    (hc : c ∈ ringStep m g tot L i (index g.splinePoints i) (index g.splinePoints (i + 1))
      (segmentPerp m g.splinePoints i).1 (segmentPerp m g.splinePoints i).2 j) :
    c ∈ tubeSegment m g tot L i := by
  simp only [tubeSegment, hlen, if_false, List.mem_append, List.mem_flatMap, List.mem_range,
    List.mem_singleton]
  exact Or.inl (Or.inr ⟨j, by omega, hc⟩)

theorem mem_draw_of_mem_tubeSegment (m : CMath α) (g : Scene α) (i : Nat) (c : GLCmd α)
    (hi : i + 1 < g.splinePoints.length)
    (htot : ¬ (arcLengthTable m g.splinePoints).1 < 0.0001)
    (hc : c ∈ tubeSegment m g (arcLengthTable m g.splinePoints).1
      (arcLengthTable m g.splinePoints).2 i) :
    c ∈ drawExtrudedGeometry m g := by
  have h2 : ¬ g.splinePoints.length < 2 := by omega
  simp only [drawExtrudedGeometry, h2, htot, if_false, List.mem_append, List.mem_flatMap,
    List.mem_range]
  exact Or.inl (Or.inl (Or.inr ⟨i, by omega, hc⟩))

theorem normal_mem_ringStep (m : CMath α) (g : Scene α) (tot : α) (L : List α)
    (i j : Nat) (curr next : Point α) (perpX perpY nx ny nz : α)
    (h : glNormal3f nx ny nz ∈ ringStep m g tot L i curr next perpX perpY j) :
    g.showWireframe = false ∧
    nx = (ringOffset m g.extrusionWidth perpX perpY j).1 / g.extrusionWidth ∧
    ny = (ringOffset m g.extrusionWidth perpX perpY j).2.1 / g.extrusionWidth ∧
    nz = (ringOffset m g.extrusionWidth perpX perpY j).2.2 / g.extrusionWidth := by
  unfold ringStep at h
  cases hw : g.showWireframe
  · simp only [hw] at h
    by_cases ht : g.textureId = 0 <;> simp [ht] at h <;> exact ⟨rfl, h⟩
  · simp [hw] at h

theorem normal_mem_draw (m : CMath α) (g : Scene α) (nx ny nz : α)
    (h : glNormal3f nx ny nz ∈ drawExtrudedGeometry m g) :
    ∃ i j, i + 1 < g.splinePoints.length ∧ j ≤ 16 ∧
      ¬ segmentLen m g.splinePoints i < 0.001 ∧
      glNormal3f nx ny nz ∈ ringStep m g (arcLengthTable m g.splinePoints).1
        (arcLengthTable m g.splinePoints).2 i (index g.splinePoints i)
        (index g.splinePoints (i + 1))
        (segmentPerp m g.splinePoints i).1 (segmentPerp m g.splinePoints i).2 j := by
  unfold drawExtrudedGeometry at h
  by_cases h2 : g.splinePoints.length < 2
  · simp [h2] at h
  by_cases htot : (arcLengthTable m g.splinePoints).1 < 0.0001
  · simp [h2, htot] at h
  simp only [h2, htot, if_false, List.mem_append, List.mem_flatMap, List.mem_range] at h
  rcases h with ((h | ⟨i, hi, h⟩) | h) | h
  · cases hw : g.showWireframe <;> by_cases ht : g.textureId = 0 <;> simp [hw, ht] at h
  · unfold tubeSegment at h
    by_cases hlen : segmentLen m g.splinePoints i < 0.001
    · simp [hlen] at h
    · simp only [hlen, if_false, List.mem_append, List.mem_flatMap, List.mem_range,
        List.mem_singleton] at h
      rcases h with (h | ⟨j, hj, h⟩) | h
      · simp at h
      · exact ⟨i, j, by omega, by omega, hlen, h⟩
      · simp at h
  · simp at h
  · split at h
    · simp [drawText] at h
    · simp at h

/-- The state of the arc-length loop after `k` passes. -/
theorem arcLength_loop (m : CMath α) (S : List (Point α)) (k : Nat) :
    (List.range' 1 k).foldl (fun acc i =>
      let totalLength := acc.1
      let cumulativeLen := acc.2
      let dx := (index S i).x - (index S (i - 1)).x
      let dy := (index S i).y - (index S (i - 1)).y
      let segLen := m.sqrt (dx * dx + dy * dy)
      let totalLength := totalLength + segLen
      (totalLength, cumulativeLen.set i totalLength))
      ((0.0 : α), List.replicate S.length (0.0 : α)) =
    (∑ t in Finset.range k, segmentLen m S t,
     (List.range S.length).map (fun i =>
       if i ≤ k then ∑ t in Finset.range i, segmentLen m S t else 0)) := by
  induction k with
  | zero =>
    simp only [List.range'_zero, List.foldl_nil, Finset.range_zero, Finset.sum_empty]
    refine Prod.ext (by norm_num) ?_
    apply List.ext_getElem?
    intro i
    rw [getElem?_map_range]
    by_cases hi : i < S.length
    · simp only [List.getElem?_replicate, hi, if_true, Option.some.injEq, Nat.le_zero]
      by_cases h0 : i = 0
      · subst h0
        norm_num
      · simp only [h0, if_false]
        norm_num
    · simp [List.getElem?_replicate, hi]
  | succ k ih =>
    rw [List.range'_concat, List.foldl_append, ih]
    simp only [List.foldl_cons, List.foldl_nil, Nat.add_sub_cancel_left, Nat.one_mul]
    have hseg : m.sqrt (((index S (1 + k)).x - (index S k).x) * ((index S (1 + k)).x - (index S k).x)
        + ((index S (1 + k)).y - (index S k).y) * ((index S (1 + k)).y - (index S k).y))
        = segmentLen m S k := by
      simp only [segmentLen, Nat.add_comm 1 k]
    rw [hseg, ← Finset.sum_range_succ]
    refine Prod.ext rfl ?_
    apply List.ext_getElem?
    intro i
    simp only [List.getElem?_set, List.length_map, List.length_range, getElem?_map_range]
    by_cases hik : 1 + k = i
    · subst hik
      by_cases hi : 1 + k < S.length
      · simp [hi, Nat.add_comm 1 k]
      · simp [hi]
    · simp only [hik, if_false]
      by_cases hi : i < S.length
      · simp only [hi, if_true, Option.some.injEq]
        by_cases h1 : i ≤ k
        · simp [h1, Nat.le_succ_of_le h1]
        · have h2 : ¬ i ≤ k + 1 := by omega
          simp [h1, h2]
      · simp [hi]

theorem arcLengthTable_total (m : CMath α) (S : List (Point α)) :
    (arcLengthTable m S).1 = ∑ t in Finset.range (S.length - 1), segmentLen m S t := by
  unfold arcLengthTable
  rw [arcLength_loop]

end ExtrusionLemmas

/-! ## Exact real arithmetic: square root, cosine and sine of the reals -/

section RealLemmas

theorem real_norm_ringOffset (w perpX perpY : ℝ) (j : Nat)
    (hperp : perpX * perpX + perpY * perpY = 1) :
    (ringOffset (CMath.mk Real.sqrt Real.cos Real.sin Real.pi) w perpX perpY j).1 ^ 2 +
    (ringOffset (CMath.mk Real.sqrt Real.cos Real.sin Real.pi) w perpX perpY j).2.1 ^ 2 +
    (ringOffset (CMath.mk Real.sqrt Real.cos Real.sin Real.pi) w perpX perpY j).2.2 ^ 2 = w ^ 2 := by
  simp only [ringOffset]
  have h := Real.cos_sq_add_sin_sq ((j : ℝ) / ((16 : ℕ) : ℝ) * 2.0 * Real.pi)
  generalize Real.cos ((j : ℝ) / ((16 : ℕ) : ℝ) * 2.0 * Real.pi) = c at h ⊢
  generalize Real.sin ((j : ℝ) / ((16 : ℕ) : ℝ) * 2.0 * Real.pi) = s at h ⊢
  have : (perpX * c * w) ^ 2 + (perpY * c * w) ^ 2 + (s * w) ^ 2
      = w ^ 2 * ((perpX * perpX + perpY * perpY) * c ^ 2 + s ^ 2) := by ring
  rw [this, hperp, one_mul, h, mul_one]

theorem real_segmentPerp_unit (S : List (Point ℝ)) (i : Nat)
    (hlen : ¬ segmentLen (CMath.mk Real.sqrt Real.cos Real.sin Real.pi) S i < 0.001) :
    (segmentPerp (CMath.mk Real.sqrt Real.cos Real.sin Real.pi) S i).1 *
      (segmentPerp (CMath.mk Real.sqrt Real.cos Real.sin Real.pi) S i).1 +
    (segmentPerp (CMath.mk Real.sqrt Real.cos Real.sin Real.pi) S i).2 *
      (segmentPerp (CMath.mk Real.sqrt Real.cos Real.sin Real.pi) S i).2 = 1 := by
  have hpos : 0 < segmentLen (CMath.mk Real.sqrt Real.cos Real.sin Real.pi) S i := by
    have := not_lt.mp hlen
    have h1 : (0 : ℝ) < 0.001 := by norm_num
    linarith
  simp only [segmentPerp, segmentDir]
  simp only [segmentLen] at hpos ⊢
  set dx := (index S (i + 1)).x - (index S i).x
  set dy := (index S (i + 1)).y - (index S i).y
  have hnn : 0 ≤ dx * dx + dy * dy := add_nonneg (mul_self_nonneg dx) (mul_self_nonneg dy)
  have hsq := Real.mul_self_sqrt hnn
  generalize Real.sqrt (dx * dx + dy * dy) = len at hpos hsq ⊢
  have hne : len ≠ 0 := ne_of_gt hpos
  field_simp
  nlinarith [hsq]

theorem real_segmentLen_nonneg (S : List (Point ℝ)) (i : Nat) :
    0 ≤ segmentLen (CMath.mk Real.sqrt Real.cos Real.sin Real.pi) S i := by
  simp only [segmentLen]
  exact Real.sqrt_nonneg _

theorem real_segment_le_total (S : List (Point ℝ)) (i : Nat) (hi : i + 1 < S.length) :
    segmentLen (CMath.mk Real.sqrt Real.cos Real.sin Real.pi) S i ≤
      (arcLengthTable (CMath.mk Real.sqrt Real.cos Real.sin Real.pi) S).1 := by
  rw [arcLengthTable_total]
  exact Finset.single_le_sum (f := fun t => segmentLen (CMath.mk Real.sqrt Real.cos Real.sin Real.pi) S t)
    (fun t _ => real_segmentLen_nonneg S t) (Finset.mem_range.mpr (by omega))

theorem real_total_guard (S : List (Point ℝ)) (i : Nat) (hi : i + 1 < S.length)
    (hlen : ¬ segmentLen (CMath.mk Real.sqrt Real.cos Real.sin Real.pi) S i < 0.001) :
    ¬ (arcLengthTable (CMath.mk Real.sqrt Real.cos Real.sin Real.pi) S).1 < 0.0001 := by
  have h1 := real_segment_le_total S i hi
  have h2 := not_lt.mp hlen
  have h3 : (0.0001 : ℝ) ≤ 0.001 := by norm_num
  exact not_lt.mpr (le_trans h3 (le_trans h2 h1))

theorem real_segmentLen_horizontal (S : List (Point ℝ)) (i : Nat)
    (hy : (index S (i + 1)).y = (index S i).y) :
    segmentLen (CMath.mk Real.sqrt Real.cos Real.sin Real.pi) S i =
      |(index S (i + 1)).x - (index S i).x| := by
  simp only [segmentLen, hy, sub_self, mul_zero, add_zero]
  exact Real.sqrt_mul_self_eq_abs _

theorem sum_abs_of_monotone (f : Nat → ℝ) (a b : Nat) (hab : a ≤ b)
    (hmono : ∀ t, a ≤ t → t < b → f t ≤ f (t + 1)) :
    ∑ t in Finset.Ico a b, |f (t + 1) - f t| = f b - f a := by
  induction b, hab using Nat.le_induction with
  | base => simp
  | succ b hab ih =>
    rw [Finset.sum_Ico_succ_top hab, ih (fun t h1 h2 => hmono t h1 (by omega)),
      abs_of_nonneg (sub_nonneg.mpr (hmono b hab (by omega)))]
    ring

theorem sum_abs_of_antitone (f : Nat → ℝ) (a b : Nat) (hab : a ≤ b)
    (hanti : ∀ t, a ≤ t → t < b → f (t + 1) ≤ f t) :
    ∑ t in Finset.Ico a b, |f (t + 1) - f t| = f a - f b := by
  induction b, hab using Nat.le_induction with
  | base => simp
  | succ b hab ih =>
    rw [Finset.sum_Ico_succ_top hab, ih (fun t h1 h2 => hanti t h1 (by omega)),
      abs_of_nonpos (sub_nonpos.mpr (hanti b hab (by omega)))]
    ring

/-- Partial sums of segment lengths along a horizontal run of samples. -/
theorem real_sum_segmentLen_horizontal (S : List (Point ℝ)) (f : Nat → ℝ) (n k : Nat)
    (hk : k ≤ n) (hS : ∀ t, t ≤ n → index S t = ⟨f t, 0⟩) :
    ∑ t in Finset.range k, segmentLen (CMath.mk Real.sqrt Real.cos Real.sin Real.pi) S t =
      ∑ t in Finset.Ico 0 k, |f (t + 1) - f t| := by
  rw [Finset.range_eq_Ico]
  apply Finset.sum_congr rfl
  intro t ht
  have ht2 : t < k := (Finset.mem_Ico.mp ht).2
  rw [real_segmentLen_horizontal S t (by rw [hS t (by omega), hS (t + 1) (by omega)]),
    hS t (by omega), hS (t + 1) (by omega)]

theorem twoPoint_monotone (t : Nat) (ht : t < 40) :
    5 * ((t : ℝ) / 40) + 15 * ((t : ℝ) / 40) ^ 2 - 10 * ((t : ℝ) / 40) ^ 3 ≤
    5 * (((t + 1 : ℕ) : ℝ) / 40) + 15 * (((t + 1 : ℕ) : ℝ) / 40) ^ 2
      - 10 * (((t + 1 : ℕ) : ℝ) / 40) ^ 3 := by
  interval_cases t <;> norm_num

theorem twoPoint_index (t : Nat) (ht : t ≤ 40) :
    index (generateSpline (Scene.load [(⟨0, 0⟩ : Point ℝ), ⟨10, 0⟩])).splinePoints t =
      ⟨5 * ((t : ℝ) / 40) + 15 * ((t : ℝ) / 40) ^ 2 - 10 * ((t : ℝ) / 40) ^ 3, 0⟩ :=
  index_of_getElem? _ _ _ (twoPoint_sample t ht)

theorem twoPoint_segmentLen (t : Nat) (ht : t < 40) :
    segmentLen (CMath.mk Real.sqrt Real.cos Real.sin Real.pi)
      (generateSpline (Scene.load [(⟨0, 0⟩ : Point ℝ), ⟨10, 0⟩])).splinePoints t =
    (5 * (((t + 1 : ℕ) : ℝ) / 40) + 15 * (((t + 1 : ℕ) : ℝ) / 40) ^ 2
      - 10 * (((t + 1 : ℕ) : ℝ) / 40) ^ 3) -
    (5 * ((t : ℝ) / 40) + 15 * ((t : ℝ) / 40) ^ 2 - 10 * ((t : ℝ) / 40) ^ 3) := by
  rw [real_segmentLen_horizontal _ t (by rw [twoPoint_index t (by omega), twoPoint_index (t + 1) (by omega)]),
    twoPoint_index t (by omega), twoPoint_index (t + 1) (by omega)]
  exact abs_of_nonneg (sub_nonneg.mpr (twoPoint_monotone t ht))

theorem repeatedX_antitone (t : Nat) (ht : t < 27) :
    (repeatedX (t + 1) : ℝ) ≤ repeatedX t := by
  interval_cases t <;> norm_num [repeatedX]

theorem repeatedX_monotone (t : Nat) (h1 : 27 ≤ t) (h2 : t < 80) :
    (repeatedX t : ℝ) ≤ repeatedX (t + 1) := by
  interval_cases t <;> norm_num [repeatedX]

theorem repeatedPoint_total :
    (arcLengthTable (CMath.mk Real.sqrt Real.cos Real.sin Real.pi)
      (generateSpline (Scene.load [(⟨0, 0⟩ : Point ℝ), ⟨0, 0⟩, ⟨1, 0⟩])).splinePoints).1
      = 73477 / 64000 := by
  rw [arcLengthTable_total, generateSpline_length _ (by simp [Scene.load])]
  have hlen : 40 * ((Scene.load [(⟨0, 0⟩ : Point ℝ), ⟨0, 0⟩, ⟨1, 0⟩]).controlPoints.length - 1)
      + 1 - 1 = 80 := by
    simp [Scene.load]
  rw [hlen, real_sum_segmentLen_horizontal _ (fun t => (repeatedX t : ℝ)) 80 80 (le_refl _)
    (fun t ht => index_of_getElem? _ _ _ (repeatedPoint_sample_all t ht)),
    ← Finset.sum_Ico_consecutive _ (by norm_num : 0 ≤ 27) (by norm_num : 27 ≤ 80),
    sum_abs_of_antitone _ 0 27 (by norm_num) (fun t _ ht => repeatedX_antitone t ht),
    sum_abs_of_monotone _ 27 80 (by norm_num) (fun t h1 h2 => repeatedX_monotone t h1 h2)]
  norm_num [repeatedX]

end RealLemmas

/-! ## Ring steps, emitted normals, and the scenes used in the claims -/

section SceneFacts

theorem ringStep_textured_vertices {α : Type} [LinearOrderedField α] (m : CMath α)
    (g : Scene α) (totalLength : α) (cumulativeLen : List α) (i j : Nat)
    (curr next : Point α) (perpX perpY : α) (s : GLState α)
    (hsolid : g.showWireframe = false) (htex : g.textureId ≠ 0) :
    glVertices s (ringStep m g totalLength cumulativeLen i curr next perpX perpY j) =
      s.vertices ++
      [{ position := (curr.x + (ringOffset m g.extrusionWidth perpX perpY j).1,
                      curr.y + (ringOffset m g.extrusionWidth perpX perpY j).2.1,
                      (ringOffset m g.extrusionWidth perpX perpY j).2.2),
         normal := ((ringOffset m g.extrusionWidth perpX perpY j).1 / g.extrusionWidth,
                    (ringOffset m g.extrusionWidth perpX perpY j).2.1 / g.extrusionWidth,
                    (ringOffset m g.extrusionWidth perpX perpY j).2.2 / g.extrusionWidth),
         color := (0.3 + 0.5 * ((i : α) / (g.splinePoints.length : α)), 0.4,
                   0.9 - 0.4 * ((i : α) / (g.splinePoints.length : α))),
         texCoord := ((j : α) / ((16 : Nat) : α),
                      cumulativeLen.getD i 0 / totalLength * g.textureRepeat) },
       { position := (next.x + (ringOffset m g.extrusionWidth perpX perpY j).1,
                      next.y + (ringOffset m g.extrusionWidth perpX perpY j).2.1,
                      (ringOffset m g.extrusionWidth perpX perpY j).2.2),
         normal := ((ringOffset m g.extrusionWidth perpX perpY j).1 / g.extrusionWidth,
                    (ringOffset m g.extrusionWidth perpX perpY j).2.1 / g.extrusionWidth,
                    (ringOffset m g.extrusionWidth perpX perpY j).2.2 / g.extrusionWidth),
         color := (0.3 + 0.5 * ((i : α) / (g.splinePoints.length : α)), 0.4,
                   0.9 - 0.4 * ((i : α) / (g.splinePoints.length : α))),
         texCoord := ((j : α) / ((16 : Nat) : α),
                      cumulativeLen.getD i 0 / totalLength * g.textureRepeat) }] := by
  simp only [glVertices, ringStep, hsolid, htex, Bool.not_false, if_true, ne_eq,
    not_false_eq_true, List.cons_append, List.nil_append, List.foldl_cons, List.foldl_nil,
    glExec, List.append_assoc]

theorem real_emitted_normals_unit (g : Scene ℝ) (nx ny nz : ℝ)
    (hw : 0 < g.extrusionWidth)
    (h : glNormal3f nx ny nz ∈
      drawExtrudedGeometry (CMath.mk Real.sqrt Real.cos Real.sin Real.pi) g) :
    Real.sqrt (nx ^ 2 + ny ^ 2 + nz ^ 2) = 1 := by
  obtain ⟨i, j, hi, hj, hlen, hmem⟩ := normal_mem_draw _ g nx ny nz h
  obtain ⟨-, hx, hy, hz⟩ := normal_mem_ringStep _ g _ _ i j _ _ _ _ nx ny nz hmem
  have hperp := real_segmentPerp_unit g.splinePoints i hlen
  have hnorm := real_norm_ringOffset g.extrusionWidth _ _ j hperp
  have hwne : g.extrusionWidth ≠ 0 := ne_of_gt hw
  rw [hx, hy, hz, div_pow, div_pow, div_pow, ← add_div, ← add_div, hnorm,
    div_self (pow_ne_zero 2 hwne)]
  exact Real.sqrt_one

theorem lineScene_width : (lineScene : Scene ℝ).extrusionWidth = 0.3 := by
  unfold lineScene
  rw [(generateSpline_frame _).2.2.1]
  rfl

theorem lineScene_length : (lineScene : Scene ℝ).splinePoints.length = 41 :=
  generateSpline_length _ (by simp [Scene.load])

theorem lineScene_segmentLen_zero :
    segmentLen (CMath.mk Real.sqrt Real.cos Real.sin Real.pi)
      (lineScene : Scene ℝ).splinePoints 0 = 859 / 6400 := by
  have h := twoPoint_segmentLen 0 (by norm_num)
  norm_num at h
  exact h

theorem lineScene_ringOffset_zero :
    ringOffset (CMath.mk Real.sqrt Real.cos Real.sin Real.pi) (0.3 : ℝ)
      (segmentPerp (CMath.mk Real.sqrt Real.cos Real.sin Real.pi)
        (lineScene : Scene ℝ).splinePoints 0).1
      (segmentPerp (CMath.mk Real.sqrt Real.cos Real.sin Real.pi)
        (lineScene : Scene ℝ).splinePoints 0).2 0 = (0, 0.3, 0) := by
  have hS0 := twoPoint_index 0 (by norm_num)
  have hS1 := twoPoint_index 1 (by norm_num)
  norm_num at hS0 hS1
  have hseg := lineScene_segmentLen_zero
  unfold lineScene at hseg ⊢
  simp only [ringOffset, segmentPerp, segmentDir, hseg, hS0, hS1]
  norm_num

end SceneFacts

/-! ## The claims -/

section Claims

/-- C1: for a control polygon of at least two points, the sample at position `40 * i`
of the sequence that `generateSpline` produces is the control point `i`, for every
index `i` of the polygon (exact arithmetic in any ordered field); in particular the
first sample is the first control point and the last sample is the last one. -/
theorem C1_samples_interpolate {α : Type} [LinearOrderedField α] (g : Scene α)
    (h : 2 ≤ g.controlPoints.length) :
    (∀ i, i < g.controlPoints.length →
      (generateSpline g).splinePoints[40 * i]? = g.controlPoints[i]?) ∧
    (generateSpline g).splinePoints.head? = g.controlPoints.head? ∧
    (generateSpline g).splinePoints.getLast? = g.controlPoints.getLast? := by
  have hlen := generateSpline_length g h
  have key : ∀ i, i < g.controlPoints.length →
      (generateSpline g).splinePoints[40 * i]? = g.controlPoints[i]? := by
    intro i hi
    rcases Nat.lt_or_ge (i + 1) g.controlPoints.length with h1 | h1
    · have := generateSpline_sample g i 0 h1 (by norm_num)
      simp only [Nat.add_zero] at this
      rw [this, index_eq_getElem? _ _ hi]
      simp only [splineSample, Nat.cast_zero, zero_div, catmullRom_zero]
    · have hi1 : i = g.controlPoints.length - 1 := by omega
      rw [hi1]
      exact generateSpline_last g h
  refine ⟨key, ?_, ?_⟩
  · have := key 0 (by omega)
    simpa [List.head?_eq_getElem?] using this
  · have := key (g.controlPoints.length - 1) (by omega)
    rw [List.getLast?_eq_getElem?, List.getLast?_eq_getElem?, hlen]
    simpa using this

/-- C1 at the fallback polygon of `main`: sample 160 is its last control point. -/
theorem C1_samples_interpolate_witness :
    2 ≤ (Scene.load (defaultPoints : List (Point ℚ))).controlPoints.length ∧
    (generateSpline (Scene.load (defaultPoints : List (Point ℚ)))).splinePoints[40 * 4]? =
      (Scene.load (defaultPoints : List (Point ℚ))).controlPoints[4]? :=
  ⟨by decide,
   (C1_samples_interpolate (Scene.load (defaultPoints : List (Point ℚ))) (by decide)).1 4
     (by decide)⟩

/-- C2: `generateSpline` leaves `40 * (|P| - 1) + 1` samples when the control polygon
has at least two points and no sample otherwise, whatever `splinePoints` held
before the call. -/
theorem C2_sample_count {α : Type} [LinearOrderedField α] (g : Scene α) :
    (2 ≤ g.controlPoints.length →
      (generateSpline g).splinePoints.length = 40 * (g.controlPoints.length - 1) + 1) ∧
    (g.controlPoints.length < 2 → (generateSpline g).splinePoints = []) :=
  ⟨generateSpline_length g, generateSpline_short g⟩

/-- C2 at the fallback polygon (161 samples) and at a one-point polygon whose scene
still holds two stale samples (none is left). -/
theorem C2_sample_count_witness :
    (generateSpline (Scene.load (defaultPoints : List (Point ℚ)))).splinePoints.length
      = 40 * ((Scene.load (defaultPoints : List (Point ℚ))).controlPoints.length - 1) + 1 ∧
    (generateSpline { (Scene.load [⟨1, 2⟩] : Scene ℚ) with
        splinePoints := [⟨3, 4⟩, ⟨5, 6⟩] }).splinePoints = [] :=
  ⟨(C2_sample_count (Scene.load (defaultPoints : List (Point ℚ)))).1 (by decide),
   (C2_sample_count { (Scene.load [⟨1, 2⟩] : Scene ℚ) with
        splinePoints := [⟨3, 4⟩, ⟨5, 6⟩] }).2 (by decide)⟩

/-- C4, evaluated: from the initial state with auto-rotate switched on, tick 720
leaves the rotation angle at exactly `360`, which is not below `360`; tick 721
leaves `0.5`.  The guard `rotationAngle > 360.0f` lets the value `360` through. -/
theorem C4_tick_720_reaches_360 :
    (timer^[720] { (Scene.initial : Scene ℚ) with autoRotate := true }).rotationAngle = 360 ∧
    ¬ ((timer^[720] { (Scene.initial : Scene ℚ) with autoRotate := true }).rotationAngle < 360) ∧
    (timer^[721] { (Scene.initial : Scene ℚ) with autoRotate := true }).rotationAngle = 0.5 := by
  have h720 := timer_iterate_angle 720 (le_refl _)
    { (Scene.initial : Scene ℚ) with autoRotate := true } rfl (by norm_num [Scene.initial])
  have ha := timer_iterate_autoRotate 720 { (Scene.initial : Scene ℚ) with autoRotate := true }
  refine ⟨?_, ?_, ?_⟩
  · rw [h720]; norm_num
  · rw [h720]; norm_num
  · rw [Function.iterate_succ_apply']
    simp only [timer, ha, if_true, h720]
    norm_num

/-- C6: in solid mode with width `w > 0`, for every segment `i` of length at least
`0.001` and every ring step `j ≤ 16`, with `(ox, oy, oz)` the offset
`(perpX*cos(a)*w, perpY*cos(a)*w, sin(a)*w)` of the step, the call
`glNormal3f (ox/w) (oy/w) (oz/w)` is issued, that normal has Euclidean length
exactly `1`, and the offset has length `w` (exact real arithmetic). -/
theorem C6_normal_unit_length (g : Scene ℝ) (i j : Nat) (ox oy oz : ℝ)
    (hsolid : g.showWireframe = false) (hw : 0 < g.extrusionWidth)
    (hi : i + 1 < g.splinePoints.length) (hj : j ≤ 16)
    (hlen : 0.001 ≤ segmentLen (CMath.mk Real.sqrt Real.cos Real.sin Real.pi) g.splinePoints i)
    (hO : ringOffset (CMath.mk Real.sqrt Real.cos Real.sin Real.pi) g.extrusionWidth
        (segmentPerp (CMath.mk Real.sqrt Real.cos Real.sin Real.pi) g.splinePoints i).1
        (segmentPerp (CMath.mk Real.sqrt Real.cos Real.sin Real.pi) g.splinePoints i).2 j
      = (ox, oy, oz)) :
    glNormal3f (ox / g.extrusionWidth) (oy / g.extrusionWidth) (oz / g.extrusionWidth)
      ∈ drawExtrudedGeometry (CMath.mk Real.sqrt Real.cos Real.sin Real.pi) g ∧
    Real.sqrt ((ox / g.extrusionWidth) ^ 2 + (oy / g.extrusionWidth) ^ 2
      + (oz / g.extrusionWidth) ^ 2) = 1 ∧
    Real.sqrt (ox ^ 2 + oy ^ 2 + oz ^ 2) = g.extrusionWidth := by
  have hlen1 : ¬ segmentLen (CMath.mk Real.sqrt Real.cos Real.sin Real.pi) g.splinePoints i < 0.001 :=
    not_lt.mpr hlen
  have hperp := real_segmentPerp_unit g.splinePoints i hlen1
  have hnorm := real_norm_ringOffset g.extrusionWidth _ _ j hperp
  rw [hO] at hnorm
  simp only at hnorm
  have hwne : g.extrusionWidth ≠ 0 := ne_of_gt hw
  refine ⟨?_, ?_, ?_⟩
  · apply mem_draw_of_mem_tubeSegment _ g i _ hi (real_total_guard _ i hi hlen1)
    apply mem_tubeSegment_of_mem_ringStep _ g _ _ i j _ hj hlen1
    simp [ringStep, hsolid, hO]
  · rw [div_pow, div_pow, div_pow, ← add_div, ← add_div, hnorm, div_self (pow_ne_zero 2 hwne)]
    exact Real.sqrt_one
  · rw [hnorm]
    exact Real.sqrt_sq (le_of_lt hw)

/-- C6 at segment 0 and ring step 0 of the two-point line `[(0,0),(10,0)]` in solid
mode, where the offset is `(0, 0.3, 0)` and the normal `(0, 1, 0)`. -/
theorem C6_normal_unit_length_witness :
    (texturedLineScene : Scene ℝ).showWireframe = false ∧
    0 < (texturedLineScene : Scene ℝ).extrusionWidth ∧
    0.001 ≤ segmentLen (CMath.mk Real.sqrt Real.cos Real.sin Real.pi)
      (texturedLineScene : Scene ℝ).splinePoints 0 ∧
    glNormal3f (0 / (texturedLineScene : Scene ℝ).extrusionWidth)
        (0.3 / (texturedLineScene : Scene ℝ).extrusionWidth)
        (0 / (texturedLineScene : Scene ℝ).extrusionWidth)
      ∈ drawExtrudedGeometry (CMath.mk Real.sqrt Real.cos Real.sin Real.pi)
        (texturedLineScene : Scene ℝ) ∧
    Real.sqrt ((0 / (texturedLineScene : Scene ℝ).extrusionWidth) ^ 2
      + (0.3 / (texturedLineScene : Scene ℝ).extrusionWidth) ^ 2
      + (0 / (texturedLineScene : Scene ℝ).extrusionWidth) ^ 2) = 1 ∧
    Real.sqrt ((0 : ℝ) ^ 2 + 0.3 ^ 2 + 0 ^ 2) = (texturedLineScene : Scene ℝ).extrusionWidth :=
  ⟨rfl,
   by rw [show (texturedLineScene : Scene ℝ).extrusionWidth = 0.3 from lineScene_width]; norm_num,
   by rw [show segmentLen (CMath.mk Real.sqrt Real.cos Real.sin Real.pi)
        (texturedLineScene : Scene ℝ).splinePoints 0 = 859 / 6400 from lineScene_segmentLen_zero]
      norm_num,
   C6_normal_unit_length (texturedLineScene : Scene ℝ) 0 0 0 0.3 0 rfl
     (by rw [show (texturedLineScene : Scene ℝ).extrusionWidth = 0.3 from lineScene_width]
         norm_num)
     (by rw [show (texturedLineScene : Scene ℝ).splinePoints.length = 41 from lineScene_length]
         norm_num)
     (by norm_num)
     (by rw [show segmentLen (CMath.mk Real.sqrt Real.cos Real.sin Real.pi)
          (texturedLineScene : Scene ℝ).splinePoints 0 = 859 / 6400
          from lineScene_segmentLen_zero]
         norm_num)
     (by rw [show (texturedLineScene : Scene ℝ).extrusionWidth = 0.3 from lineScene_width]
         exact lineScene_ringOffset_zero)⟩

/-- C7 as stated fails: started with a width argument that `std::stof` reads as NaN,
the scene keeps the width NaN after "narrow" (`NaN < 0.1` is false, so the floor is
not applied), and `0.1 <= NaN` is false; so it is not true that a single "narrow"
yields a width of at least `0.1` from any starting width. -/
theorem C7_counterexample :
    keyboard 's' (startScene Flt.nan : Scene (Flt ℚ)) = some (startScene Flt.nan) ∧
    Flt.le (Flt.num 0.1) (startScene Flt.nan : Scene (Flt ℚ)).extrusionWidth = false ∧
    ¬ (∀ s : Scene (Flt ℚ), ∃ s1, keyboard 's' s = some s1 ∧
        Flt.le (Flt.num 0.1) s1.extrusionWidth = true) := by
  have h1 : keyboard 's' (startScene Flt.nan : Scene (Flt ℚ)) = some (startScene Flt.nan) :=
    keyboard_narrow_nan _ rfl
  refine ⟨h1, rfl, ?_⟩
  intro hall
  obtain ⟨s1, hs1, hle⟩ := hall (startScene Flt.nan)
  rw [h1] at hs1
  have hs : s1 = startScene Flt.nan := (Option.some.inj hs1).symm
  rw [hs] at hle
  simp [startScene, Flt.le] at hle

/-- C7 amended: "widen" sets the width to `w + 0.05`; "narrow" sets a width that is
a number `x` to `max 0.1 (x - 0.05)`, leaves a width of at least `0.1` from every
starting width that is not NaN, and leaves a NaN width NaN; and from a width of at
least `0.1`, every finite run of "widen" / "narrow" key presses ends (without
exit) in a scene whose width is at least `0.1`. -/
theorem C7_width_floor {α : Type} [LinearOrderedField α] (g : Scene (Flt α))
    (keys : List Char)
    (hkeys : ∀ key ∈ keys, key = 'w' ∨ key = 'W' ∨ key = 's' ∨ key = 'S')
    (hw : Flt.le (Flt.num 0.1) g.extrusionWidth = true) :
    (∃ g1, keyboardRun keys g = some g1 ∧ Flt.le (Flt.num 0.1) g1.extrusionWidth = true) ∧
    (∀ s : Scene (Flt α),
      keyboard 'w' s =
        some { s with extrusionWidth := Flt.add s.extrusionWidth (Flt.num 0.05) } ∧
      (∀ x : α, s.extrusionWidth = Flt.num x →
        keyboard 's' s = some { s with extrusionWidth := Flt.num (max 0.1 (x - 0.05)) }) ∧
      (s.extrusionWidth ≠ Flt.nan →
        ∃ s1, keyboard 's' s = some s1 ∧ Flt.le (Flt.num 0.1) s1.extrusionWidth = true) ∧
      (s.extrusionWidth = Flt.nan → keyboard 's' s = some s)) :=
  ⟨keyboardRun_width keys g hkeys hw,
   fun s => ⟨keyboard_widen s, keyboard_narrow_num s,
     fun hne => ⟨_, keyboard_narrow s, narrow_floor _ hne⟩,
     keyboard_narrow_nan s⟩⟩

/-- C7 amended, at the default start-up width `0.3` and the key presses narrow,
narrow, widen, narrow, narrow, narrow. -/
theorem C7_width_floor_witness :
    (∀ key ∈ ['s', 's', 'w', 'S', 's', 's'], key = 'w' ∨ key = 'W' ∨ key = 's' ∨ key = 'S') ∧
    Flt.le (Flt.num 0.1) (startScene (Flt.num 0.3) : Scene (Flt ℚ)).extrusionWidth = true ∧
    (∃ g1, keyboardRun ['s', 's', 'w', 'S', 's', 's'] (startScene (Flt.num 0.3) : Scene (Flt ℚ))
        = some g1 ∧
      Flt.le (Flt.num 0.1) g1.extrusionWidth = true) :=
  ⟨by decide, by norm_num [startScene, Flt.le],
   (C7_width_floor (startScene (Flt.num 0.3) : Scene (Flt ℚ)) ['s', 's', 'w', 'S', 's', 's']
     (by decide) (by norm_num [startScene, Flt.le])).1⟩

/-- C8, evaluated: on the file content `"1,2\n\n3,4\n"` the loop runs three times
(the blank line is a line), two of the three lines parse as `<float>,<float>`, and
`readPoints` pushes three points: the blank line is not skipped. -/
theorem C8_blank_line_is_loaded (uninit : Nat → Point ℚ) (g : Scene ℚ) :
    getlines [] "1,2\n\n3,4\n".toList = ["1,2".toList, [], "3,4".toList] ∧
    ((getlines [] "1,2\n\n3,4\n".toList).filter (fun l => parsesAsPoint parseDecimal l)).length
      = 2 ∧
    (readPoints parseDecimal uninit (some "1,2\n\n3,4\n") g).2.controlPoints.length =
      g.controlPoints.length + 3 := by
  refine ⟨by decide, by decide, ?_⟩
  rw [readPoints_length]
  have : (getlines [] "1,2\n\n3,4\n".toList).length = 3 := by decide
  rw [this]

/-- C9 as stated fails: for `P = [(0,0),(0,0),(1,0)]` the sample `S_20` is
`(-1/16, 0)`, not `(0, 0)`; so the conjunction "the first 40 samples equal `(0,0)`
and `L_tot = 1`" is false. -/
theorem C9_counterexample :
    ¬ ((∀ j : Nat, j < 40 → (repeatedScene : Scene ℝ).splinePoints[j]? = some ⟨0, 0⟩) ∧
      (arcLengthTable (CMath.mk Real.sqrt Real.cos Real.sin Real.pi)
        (repeatedScene : Scene ℝ).splinePoints).1 = 1) := by
  unfold repeatedScene
  rintro ⟨h, -⟩
  have h20 := h 20 (by norm_num)
  rw [repeatedPoint_sample 20 (by norm_num)] at h20
  have := congrArg Point.x (Option.some.inj h20)
  norm_num at this

/-- C9 amended: for `P = [(0,0),(0,0),(1,0)]` the first 40 samples lie on the x-axis
at `S_j = ((t³ - t²)/2, 0)` with `t = j/40`; `S_0 = (0,0)` and every `S_j` with
`0 < j < 40` lies strictly left of the origin; the total chord length of `S` is
`73477/64000 = 1.148078125`, not `1`. -/
theorem C9_repeated_point_samples (j : Nat) (hj : j < 40) :
    (repeatedScene : Scene ℝ).splinePoints[j]? =
      some ⟨(((j : ℝ) / 40) ^ 3 - ((j : ℝ) / 40) ^ 2) / 2, 0⟩ ∧
    (0 < j → (((j : ℝ) / 40) ^ 3 - ((j : ℝ) / 40) ^ 2) / 2 < 0) ∧
    (repeatedScene : Scene ℝ).splinePoints[0]? = some ⟨0, 0⟩ ∧
    (arcLengthTable (CMath.mk Real.sqrt Real.cos Real.sin Real.pi)
      (repeatedScene : Scene ℝ).splinePoints).1 = 73477 / 64000 := by
  refine ⟨repeatedPoint_sample j hj, ?_, ?_, repeatedPoint_total⟩
  · intro h0
    have h1 : (0 : ℝ) < (j : ℝ) / 40 := by positivity
    have h2 : (j : ℝ) / 40 < 1 := by
      rw [div_lt_one (by norm_num)]
      exact_mod_cast hj
    have h3 : ((j : ℝ) / 40) ^ 3 - ((j : ℝ) / 40) ^ 2
        = ((j : ℝ) / 40) ^ 2 * ((j : ℝ) / 40 - 1) := by
      ring
    rw [h3]
    have h4 : ((j : ℝ) / 40) ^ 2 * ((j : ℝ) / 40 - 1) < 0 :=
      mul_neg_of_pos_of_neg (by positivity) (by linarith)
    linarith
  · unfold repeatedScene
    rw [repeatedPoint_sample 0 (by norm_num)]
    norm_num

/-- C9 amended, at `j = 20`: the sample `S_20`. -/
theorem C9_repeated_point_samples_witness :
    20 < 40 ∧
    (repeatedScene : Scene ℝ).splinePoints[20]? =
      some ⟨((((20 : ℕ) : ℝ) / 40) ^ 3 - (((20 : ℕ) : ℝ) / 40) ^ 2) / 2, 0⟩ :=
  ⟨by decide, (C9_repeated_point_samples 20 (by decide)).1⟩

/-- C10 as stated fails: for `P = [(0,0),(10,0)]` the sample `S_1` is
`(0.13421875, 0)`, farther than `1e-5` from `(0.25, 0)`. -/
theorem C10_counterexample :
    ¬ (∀ i : Nat, i ≤ 40 → ∃ p : Point ℚ,
        (lineScene : Scene ℚ).splinePoints[i]? = some p ∧
        |p.x - 0.25 * (i : ℚ)| ≤ 0.00001 ∧ |p.y - 0| ≤ 0.00001) := by
  unfold lineScene
  intro hall
  obtain ⟨p, hp, hx, _⟩ := hall 1 (by norm_num)
  rw [twoPoint_sample 1 (by norm_num)] at hp
  have hpx : p.x = 5 * ((1 : ℚ) / 40) + 15 * ((1 : ℚ) / 40) ^ 2 - 10 * ((1 : ℚ) / 40) ^ 3 := by
    have := Option.some.inj hp
    rw [← this]
    norm_num
  rw [hpx] at hx
  norm_num [abs_le] at hx

/-- C10 amended: for `P = [(0,0),(10,0)]` there are 41 samples, all on the line
`y = 0`, with `S_i = (5t + 15t² - 10t³, 0)` at `t = i/40`: they run from `(0,0)` to
`(10,0)` uniformly in the curve parameter, not in distance. -/
theorem C10_two_point_samples (i : Nat) (hi : i ≤ 40) :
    (lineScene : Scene ℚ).splinePoints.length = 41 ∧
    (lineScene : Scene ℚ).splinePoints[i]? =
      some ⟨5 * ((i : ℚ) / 40) + 15 * ((i : ℚ) / 40) ^ 2 - 10 * ((i : ℚ) / 40) ^ 3, 0⟩ :=
  ⟨generateSpline_length _ (by decide), twoPoint_sample i hi⟩

/-- C10 amended, at `i = 20`: the middle sample. -/
theorem C10_two_point_samples_witness :
    20 ≤ 40 ∧
    (lineScene : Scene ℚ).splinePoints.length = 41 ∧
    (lineScene : Scene ℚ).splinePoints[20]? =
      some ⟨5 * (((20 : ℕ) : ℚ) / 40) + 15 * (((20 : ℕ) : ℚ) / 40) ^ 2
        - 10 * (((20 : ℕ) : ℚ) / 40) ^ 3, 0⟩ :=
  ⟨by decide, C10_two_point_samples 20 (by decide)⟩

end Claims
